import Mathlib

/-!
Verification of the selection-resolution and manifest reconciliation core of
the idc-index package (file `idc_index/index.py`, class `IDCClient`).

The Python code is shallowly embedded: dataframes become lists of `IndexRow`
records, raised exceptions become `Except.error` values carrying the data that
the exception and its accompanying `logger.error` diagnostics expose, the
external collaborators (the s5cmd subprocess probe, the free disk space
reported by psutil, the on-disk byte counts) become explicit parameters, and
the stateful downloader becomes functions from those parameters to explicit
outcome values and effect traces.  Python string manipulation (`str.replace`,
`str.split`, the fixed regular expressions used by the SQL in
`_validate_update_manifest_and_get_download_size`) is embedded by executable
character-list functions whose semantics are spelled out next to each
definition.
-/

deriving instance DecidableEq for Except

namespace IdcIndex

/-! ## Python value model

The selection filters of `IDCClient` accept, per identifier, a string, a list
of strings, or `None`; any other runtime type is rejected by an explicit
`isinstance` check.  `PyVal.pother` stands for a value that is neither a
string nor a list. -/

inductive PyVal where
  | pstr (s : String)
  | plist (l : List String)
  | pother
deriving DecidableEq

/-- A supplied argument passes the `isinstance(x, str) or isinstance(x, list)`
check of `_safe_filter_by_selection` (absent arguments pass trivially). -/
def okArg : Option PyVal → Bool
  | some PyVal.pother => false
  | _ => true

/-- Python truthiness of an optional argument, as used by
`if sopInstanceUID:` in `download_from_selection`: `None`, the empty string
and the empty list are falsy. -/
def pyTruthy : Option PyVal → Bool
  | none => false
  | some (PyVal.pstr s) => !s.isEmpty
  | some (PyVal.plist l) => !l.isEmpty
  | some PyVal.pother => true

/-- The value list a filter argument denotes: `values = [_id]` for a string,
the list itself for a list (source: `_filter_dataframe_by_id`, lines 140-142). -/
def idValues : PyVal → List String
  | PyVal.pstr s => [s]
  | PyVal.plist l => l
  | PyVal.pother => []

/-! ## String helpers

Executable embeddings of the Python / DuckDB string operations the source
uses.  All operate on `List Char` so that they reduce inside the kernel. -/

/-- Worker for `replaceAll`, structurally recursive on a fuel argument so
that it evaluates inside the kernel.  Each step consumes at least one input
character, so fuel `s.length` never runs out when `pat` is non-empty. -/
def replaceAllGo (pat rep : List Char) : ℕ → List Char → List Char
  | _, [] => []
  | 0, s => s
  | Nat.succ fuel, c :: cs =>
    if pat ≠ [] ∧ pat.isPrefixOf (c :: cs) = true then
      rep ++ replaceAllGo pat rep fuel ((c :: cs).drop pat.length)
    else
      c :: replaceAllGo pat rep fuel cs

/-- Replace every non-overlapping occurrence of `pat` in `s`, scanning left to
right and not rescanning the replacement: the semantics of Python
`str.replace(pat, rep)` for a non-empty `pat` (an empty `pat` is treated as a
no-op here; the source never passes one). -/
def replaceAll (pat rep : List Char) (s : List Char) : List Char :=
  replaceAllGo pat rep s.length s

/-- Replace only the first occurrence of `pat` (DuckDB `regexp_replace` with a
literal pattern and no global flag). -/
def replaceFirst (pat rep : List Char) : List Char → List Char
  | [] => []
  | c :: cs =>
    if pat ≠ [] ∧ pat.isPrefixOf (c :: cs) = true then
      rep ++ (c :: cs).drop pat.length
    else
      c :: replaceFirst pat rep cs

/-- Python `str.replace` on `String`. -/
def pyReplace (s pat rep : String) : String :=
  (replaceAll pat.data rep.data s.data).asString

/-- Split on a single separator character, keeping empty segments: the
semantics of Python `str.split(sep)` and DuckDB string splitting for the
one-character separator used by the source. -/
def splitChar (sep : Char) : List Char → List (List Char)
  | [] => [[]]
  | c :: cs =>
    match splitChar sep cs with
    | [] => [[c]]
    | g :: gs => if c = sep then [] :: g :: gs else (c :: g) :: gs

/-- DuckDB `TRIM`: strip leading and trailing space characters. -/
def trimSpaces (s : String) : String :=
  (((s.data.dropWhile (fun c => c == ' ')).reverse.dropWhile
      (fun c => c == ' ')).reverse).asString

/-! ## The index data model

One row of the in-memory metadata index (`self.index`, one row per DICOM
series; `SOPInstanceUID` additionally appears in the instance-level
`sm_instance_index` and is carried here so that the same row type serves both
tables).  `series_size_MB` is cast to float by `__init__`; it is embedded as a
rational. -/

structure IndexRow where
  collection_id : String
  PatientID : String
  StudyInstanceUID : String
  SeriesInstanceUID : String
  SOPInstanceUID : String
  Modality : String
  series_size_MB : ℚ
  series_aws_url : String
deriving DecidableEq

/-- The derived `crdc_series_uuid` column created by `__init__`:
`self.index["series_aws_url"].str.split("/").str[3]`, i.e. the fourth
slash-delimited segment of the storage URL (the empty string standing for the
missing value pandas would produce on a short URL). -/
def derivedCrdcSeriesUuid (series_aws_url : String) : String :=
  (((splitChar '/' series_aws_url.data).drop 3).headD []).asString

/-- The filterable columns of the index, in the naming of the source. -/
inductive ColKey where
  | collection_id
  | PatientID
  | StudyInstanceUID
  | SeriesInstanceUID
  | SOPInstanceUID
  | crdc_series_uuid
deriving DecidableEq

def colName : ColKey → String
  | ColKey.collection_id => "collection_id"
  | ColKey.PatientID => "PatientID"
  | ColKey.StudyInstanceUID => "StudyInstanceUID"
  | ColKey.SeriesInstanceUID => "SeriesInstanceUID"
  | ColKey.SOPInstanceUID => "SOPInstanceUID"
  | ColKey.crdc_series_uuid => "crdc_series_uuid"

def colGet : ColKey → IndexRow → String
  | ColKey.collection_id, r => r.collection_id
  | ColKey.PatientID, r => r.PatientID
  | ColKey.StudyInstanceUID, r => r.StudyInstanceUID
  | ColKey.SeriesInstanceUID, r => r.SeriesInstanceUID
  | ColKey.SOPInstanceUID, r => r.SOPInstanceUID
  | ColKey.crdc_series_uuid, r => derivedCrdcSeriesUuid r.series_aws_url

/-! ## Errors

Each constructor stands for one Python exception site of the embedded code and
carries exactly the data that the exception message (or, where noted, the
`logger.error` diagnostics emitted at the raise site) exposes. -/

/-- A pandas column-indexing key: the main index has only string column
labels, so indexing with any other scalar (such as a `bool`) raises
`KeyError`. -/
inductive PandasKey where
  | strKey (s : String)
  | boolKey (b : Bool)
deriving DecidableEq

inductive PyError where
  /-- `TypeError(msg)` from the isinstance checks of
  `_safe_filter_by_selection`. -/
  | typeError (msg : String)
  /-- `ValueError(f"No data found for the key with the values values.")`
  from `_filter_dataframe_by_id`; carries the offending key and values the
  message interpolates. -/
  | selectionNotFound (key : String) (values : List String)
  /-- `ValueError(msg)` from `download_from_selection` when the
  instance-level index is not installed. -/
  | valueError (msg : String)
  /-- `TypeError`: `result_df["series_size_MB"]` evaluated while `result_df`
  is `None` (`_safe_filter_by_selection` returned `None`). -/
  | noneNotSubscriptable
  /-- pandas `KeyError` on a column lookup that is not among the column
  labels. -/
  | keyError (key : PandasKey)
deriving DecidableEq

/-! ## Selection Filter (`_filter_dataframe_by_id`, `_safe_filter_by_selection`) -/

/-- Source, `index.py` lines 138-147:
values are normalized to a list, the dataframe is filtered by membership of
the key column in the values, and an empty result raises a `ValueError`
naming the key and the values instead of being returned. -/
def _filter_dataframe_by_id (key : ColKey) (dataframe : List IndexRow)
    (idArg : PyVal) : Except PyError (List IndexRow) :=
  let values := idValues idArg
  let filtered_df := dataframe.filter (fun r => values.contains (colGet key r))
  if filtered_df.isEmpty then
    Except.error (PyError.selectionNotFound (colName key) values)
  else
    Except.ok filtered_df

/-- Source lines 232-236. -/
def _filter_by_collection_id (df_index : List IndexRow) (collection_id : PyVal) :=
  _filter_dataframe_by_id ColKey.collection_id df_index collection_id

/-- Source lines 238-240. -/
def _filter_by_patient_id (df_index : List IndexRow) (patient_id : PyVal) :=
  _filter_dataframe_by_id ColKey.PatientID df_index patient_id

/-- Source lines 242-246. -/
def _filter_by_dicom_study_uid (df_index : List IndexRow) (dicom_study_uid : PyVal) :=
  _filter_dataframe_by_id ColKey.StudyInstanceUID df_index dicom_study_uid

/-- Source lines 248-252. -/
def _filter_by_dicom_series_uid (df_index : List IndexRow) (dicom_series_uid : PyVal) :=
  _filter_dataframe_by_id ColKey.SeriesInstanceUID df_index dicom_series_uid

/-- Source lines 254-258. -/
def _filter_by_dicom_instance_uid (df_index : List IndexRow) (dicom_instance_uid : PyVal) :=
  _filter_dataframe_by_id ColKey.SOPInstanceUID df_index dicom_instance_uid

/-- One isinstance check of `_safe_filter_by_selection` (lines 159-187): a
supplied argument that is neither a string nor a list raises `TypeError`. -/
def checkArgType (argName : String) (v : Option PyVal) : Except PyError Unit :=
  match v with
  | some PyVal.pother =>
      Except.error (PyError.typeError (argName ++ " must be a string or list of strings"))
  | _ => Except.ok ()

/-- The filter cascade of `_safe_filter_by_selection` (lines 200-230): the
single most specific supplied identifier is filtered by, in the order
crdc_series_uuid, SOPInstanceUID, SeriesInstanceUID, StudyInstanceUID,
PatientID, collection_id; when none is supplied the function returns `None`
(embedded as `Option.none` inside `Except.ok`). -/
def selectionHierarchyChain (df_index : List IndexRow)
    (collection_id patientId studyInstanceUID seriesInstanceUID
      sopInstanceUID crdc_series_uuid : Option PyVal) :
    Except PyError (Option (List IndexRow)) :=
  match crdc_series_uuid with
  | some v =>
    match _filter_dataframe_by_id ColKey.crdc_series_uuid df_index v with
    | Except.error e => Except.error e
    | Except.ok r => Except.ok (some r)
  | none =>
  match sopInstanceUID with
  | some v =>
    match _filter_by_dicom_instance_uid df_index v with
    | Except.error e => Except.error e
    | Except.ok r => Except.ok (some r)
  | none =>
  match seriesInstanceUID with
  | some v =>
    match _filter_by_dicom_series_uid df_index v with
    | Except.error e => Except.error e
    | Except.ok r => Except.ok (some r)
  | none =>
  match studyInstanceUID with
  | some v =>
    match _filter_by_dicom_study_uid df_index v with
    | Except.error e => Except.error e
    | Except.ok r => Except.ok (some r)
  | none =>
  match patientId with
  | some v =>
    match _filter_by_patient_id df_index v with
    | Except.error e => Except.error e
    | Except.ok r => Except.ok (some r)
  | none =>
  match collection_id with
  | some v =>
    match _filter_by_collection_id df_index v with
    | Except.error e => Except.error e
    | Except.ok r => Except.ok (some r)
  | none => Except.ok none

/-- Source lines 149-230: the six isinstance checks in source order, then the
most-specific-first filter cascade. -/
def _safe_filter_by_selection (df_index : List IndexRow)
    (collection_id patientId studyInstanceUID seriesInstanceUID
      sopInstanceUID crdc_series_uuid : Option PyVal) :
    Except PyError (Option (List IndexRow)) :=
  match checkArgType "collection_id" collection_id with
  | Except.error e => Except.error e
  | Except.ok _ =>
  match checkArgType "patientId" patientId with
  | Except.error e => Except.error e
  | Except.ok _ =>
  match checkArgType "studyInstanceUID" studyInstanceUID with
  | Except.error e => Except.error e
  | Except.ok _ =>
  match checkArgType "seriesInstanceUID" seriesInstanceUID with
  | Except.error e => Except.error e
  | Except.ok _ =>
  match checkArgType "sopInstanceUID" sopInstanceUID with
  | Except.error e => Except.error e
  | Except.ok _ =>
  match checkArgType "crdc_series_uuid" crdc_series_uuid with
  | Except.error e => Except.error e
  | Except.ok _ =>
    selectionHierarchyChain df_index collection_id patientId studyInstanceUID
      seriesInstanceUID sopInstanceUID crdc_series_uuid

/-- A user selection: the six optional identifier filters of
`_safe_filter_by_selection`, in source order. -/
structure Selection where
  collection_id : Option PyVal
  patientId : Option PyVal
  studyInstanceUID : Option PyVal
  seriesInstanceUID : Option PyVal
  sopInstanceUID : Option PyVal
  crdc_series_uuid : Option PyVal
deriving DecidableEq

def applySelectionFilter (df : List IndexRow) (s : Selection) :
    Except PyError (Option (List IndexRow)) :=
  _safe_filter_by_selection df s.collection_id s.patientId s.studyInstanceUID
    s.seriesInstanceUID s.sopInstanceUID s.crdc_series_uuid

/-- All supplied identifiers of the selection pass the isinstance checks. -/
def Selection.wellTypedArgs (s : Selection) : Bool :=
  okArg s.collection_id && okArg s.patientId && okArg s.studyInstanceUID &&
    okArg s.seriesInstanceUID && okArg s.sopInstanceUID && okArg s.crdc_series_uuid

/-- The selection keeping only its most specific supplied identifier, in the
hierarchy order crdc_series_uuid, SOPInstanceUID, SeriesInstanceUID,
StudyInstanceUID, PatientID, collection_id (stated from the spec, to be
compared with what `_safe_filter_by_selection` computes). -/
def mostSpecificOnly (s : Selection) : Selection :=
  if s.crdc_series_uuid.isSome then
    ⟨none, none, none, none, none, s.crdc_series_uuid⟩
  else if s.sopInstanceUID.isSome then
    ⟨none, none, none, none, s.sopInstanceUID, none⟩
  else if s.seriesInstanceUID.isSome then
    ⟨none, none, none, s.seriesInstanceUID, none, none⟩
  else if s.studyInstanceUID.isSome then
    ⟨none, none, s.studyInstanceUID, none, none, none⟩
  else if s.patientId.isSome then
    ⟨none, s.patientId, none, none, none, none⟩
  else
    ⟨s.collection_id, none, none, none, none, none⟩

/-! ## Rounding and size formatting -/

/-- Python `round(x)` on an exact value: nearest integer, ties to even. -/
def roundHalfEven (q : ℚ) : ℤ :=
  let f := ⌊q⌋
  let r := q - f
  if r < 1 / 2 then f
  else if 1 / 2 < r then f + 1
  else if f % 2 = 0 then f else f + 1

/-- Python `round(x, 2)` (the binary floating point representation error of
the source is not modelled; no claim depends on it). -/
def round2 (q : ℚ) : ℚ := (roundHalfEven (q * 100) : ℚ) / 100

/-- The value/unit pair interpolated into the string `_format_size` returns
(for example `50.0 MB`). -/
structure FormattedSize where
  value : ℚ
  unit : String
deriving DecidableEq

/-- Source, `_format_size` lines 1361-1376: report in the largest of
TB/GB/MB that is at least 1, falling back to the raw argument as bytes. -/
def _format_size (size : ℚ) (size_in_bytes : Bool) : FormattedSize :=
  let size_MB := if size_in_bytes then size / (10 ^ 6 : ℚ) else size
  let size_GB := size_MB / 1000
  let size_TB := size_GB / 1000
  if 1 ≤ size_TB then ⟨round2 size_TB, "TB"⟩
  else if 1 ≤ size_GB then ⟨round2 size_GB, "GB"⟩
  else if 1 ≤ size_MB then ⟨round2 size_MB, "MB"⟩
  else ⟨round2 size, "bytes"⟩

/-! ## Directory Hierarchy Resolver
(`_generate_sql_concat_for_building_directory`, lines 979-1022) -/

def valid_attributes : List String :=
  ["PatientID", "collection_id", "Modality", "StudyInstanceUID", "SeriesInstanceUID"]

def valid_separators : List String := ["_", "-", "/"]

/-- The template after stripping every `%`-prefixed whitelisted attribute (in
source list order) and then every allowed separator, exactly as the
validation loop of `_generate_sql_concat_for_building_directory` computes
`updated_template`. -/
def templateResidue (dirTemplate : String) : String :=
  valid_separators.foldl (fun acc sep => pyReplace acc sep "")
    (valid_attributes.foldl (fun acc attr => pyReplace acc ("%" ++ attr) "") dirTemplate)

/-- The data the resolver reports when it rejects a template: the source logs
the non-empty residue (`Invalid download hierarchy template:` + residue) and
the lists of valid attributes and separators via `logger.error`, then raises
a `ValueError`. -/
structure TemplateError where
  residue : String
  validAttributes : List String
  validSeparators : List String
deriving DecidableEq

/-- The single-quote character interpolated by the source into the SQL
CONCAT expression. -/
def sq : String := (Char.ofNat 39).toString

/-- The `CONCAT(...)` SQL expression built from a validated template, source
lines 1011-1022: each `%attr` becomes a quoted `, attr,` splice, the download
directory is prefixed, and empty-string artifacts are removed. -/
def buildConcatCommand (dirTemplate downloadDir : String) : String :=
  let concat_command :=
    valid_attributes.foldl
      (fun acc attr => pyReplace acc ("%" ++ attr) (sq ++ ", " ++ attr ++ "," ++ sq))
      dirTemplate
  let concat_command :=
    "CONCAT(" ++ sq ++ downloadDir ++ "/" ++ sq ++ "," ++ sq ++ concat_command ++ sq ++ ")"
  let concat_command := pyReplace concat_command ("," ++ sq ++ sq) ""
  let concat_command := pyReplace concat_command (sq ++ sq ++ ",") ""
  pyReplace concat_command ("," ++ sq ++ sq ++ ",") ""

/-- Source lines 979-1022: a template whose residue after stripping is
non-empty is rejected (diagnostics logged, `ValueError` raised); otherwise
the CONCAT path expression is produced. -/
def _generate_sql_concat_for_building_directory (dirTemplate downloadDir : String) :
    Except TemplateError String :=
  if templateResidue dirTemplate ≠ "" then
    Except.error ⟨templateResidue dirTemplate, valid_attributes, valid_separators⟩
  else
    Except.ok (buildConcatCommand dirTemplate downloadDir)

/-! ## Manifest Reconciler
(`_validate_update_manifest_and_get_download_size`, lines 672-977)

The two DuckDB queries of the source are embedded as explicit left joins over
row lists.  The fixed regular expressions are embedded as executable
character-list scans whose semantics are given next to each definition. -/

def aws_endpoint_url : String := "https://s3.amazonaws.com"

def gcp_endpoint_url : String := "https://storage.googleapis.com"

/-- DuckDB `REGEXP_EXTRACT(x, (?:.*?/)\x7b3\x7d([^/?#]+), 1)`: the first
non-empty run of characters other than slash, question mark and hash that
starts right after a slash with at least three slashes before it — i.e. the
first slash-delimited segment at index 3 or later with a non-empty prefix of
such characters.  `none` models a failed match. -/
def regexExtractSeriesUuid (s : String) : Option String :=
  ((((splitChar '/' s.data).drop 3).map
      (fun seg => seg.takeWhile (fun c => !(c == '/') && !(c == '?') && !(c == '#')))).find?
      (fun seg => !seg.isEmpty)).map List.asString

/-- DuckDB `REGEXP_EXTRACT(manifest_cp_cmd, s3://\S+)` (first query, line
765): from the first occurrence of `s3://`, the maximal run of non-whitespace
characters. -/
def extractS3UrlRegex (s : String) : Option String :=
  let rec go : List Char → Option (List Char)
    | [] => none
    | c :: rest =>
      if ("s3://".data).isPrefixOf (c :: rest) then
        some ((c :: rest).takeWhile (fun ch => !ch.isWhitespace))
      else go rest
  (go s.data).map List.asString

/-- The second query's s3 url (line 843):
`REGEXP_REPLACE(regexp_replace(manifest_cp_cmd, cp , ), \s[^\s]*$, )` — drop
the first occurrence of `cp ` and then the last whitespace character together
with everything after it (a no-op when the string has no whitespace). -/
def extractS3UrlReplace (cmd : String) : String :=
  let afterCp := replaceFirst ("cp ".data) [] cmd.data
  let rev := afterCp.reverse
  let revDropped := rev.dropWhile (fun ch => !ch.isWhitespace)
  match revDropped with
  | [] => afterCp.asString
  | _ :: rest => rest.reverse.asString

/-- One row of the joined `merged_df`: a manifest copy command together with
the index row (if any) whose extracted `crdc_series_uuid` matches, the match
flags, and the classified endpoint. -/
structure MergedRow where
  manifest_cp_cmd : String
  s3_url : Option String
  seriesInstanceUID : Option String
  series_size_MB : Option ℚ
  crdc_series_uuid_match : Bool
  s3_url_match : Bool
  endpoint : String
deriving DecidableEq

/-- LEFT JOIN of the manifest lines against index rows on the extracted
`crdc_series_uuid` (both queries share this shape; they differ in the url
extraction and in the url comparison, passed in as parameters).  A line with
no matching row yields one all-NULL row whose endpoint CASE falls through to
`unknown`; a line with matches yields one row per match, classified `aws`
exactly when the urls compare equal. -/
def manifestJoin (idxRows : List IndexRow) (lines : List String)
    (extractUrl : String → Option String)
    (urlMatches : Option String → String → Bool) : List MergedRow :=
  (lines.map (fun cmd =>
    let mUuid := regexExtractSeriesUuid cmd
    let s3url := extractUrl cmd
    let ms := idxRows.filter
      (fun r => mUuid.isSome && (regexExtractSeriesUuid r.series_aws_url == mUuid))
    match ms with
    | [] => [{ manifest_cp_cmd := cmd, s3_url := s3url, seriesInstanceUID := none,
               series_size_MB := none, crdc_series_uuid_match := false,
               s3_url_match := false, endpoint := "unknown" }]
    | matched => matched.map (fun r =>
        let um := urlMatches s3url r.series_aws_url
        { manifest_cp_cmd := cmd, s3_url := s3url,
          seriesInstanceUID := some r.SeriesInstanceUID,
          series_size_MB := some r.series_size_MB, crdc_series_uuid_match := true,
          s3_url_match := um,
          endpoint := if um then "aws" else "unknown" }))).flatten

/-- The first query (lines 749-791): join against the current index only,
url via the `s3://\S+` regex, compared by plain SQL equality (NULL never
equal). -/
def manifestJoinCurrent (index : List IndexRow) (lines : List String) : List MergedRow :=
  manifestJoin index lines extractS3UrlRegex (fun o u => o == some u)

/-- The fallback query (lines 809-868): join against current plus all
prior-version rows (`union by name`; deduplication of byte-identical rows is
immaterial here and not modelled), url via the replace-based extraction,
compared after `TRIM`. -/
def manifestJoinCombined (index previous : List IndexRow) (lines : List String) :
    List MergedRow :=
  manifestJoin (index ++ previous) lines (fun cmd => some (extractS3UrlReplace cmd))
    (fun o u =>
      match o with
      | none => false
      | some s => trimSpaces s == trimSpaces u)

/-- `merged_df` after the fallback logic of lines 793-868: the current-index
join if every line matched, otherwise the combined-generations join. -/
def mergedAfterFallback (index previous : List IndexRow) (lines : List String) :
    List MergedRow :=
  let merged1 := manifestJoinCurrent index lines
  if merged1.all (fun m => m.crdc_series_uuid_match) then merged1
  else manifestJoinCombined index previous lines

/-- The copy commands still unmatched after the fallback join: these literal
lines are emitted through `logger.error` (lines 869-878) and are never
carried by any raised exception. -/
def unmatchedManifestLines (index previous : List IndexRow) (lines : List String) :
    List String :=
  ((mergedAfterFallback index previous lines).filter
    (fun m => !m.crdc_series_uuid_match)).map (fun m => m.manifest_cp_cmd)

/-- pandas `Series.unique`: distinct values in order of first occurrence. -/
def uniqueKeepOrder (l : List String) : List String :=
  l.foldl (fun acc x => if acc.contains x then acc else acc ++ [x]) []

/-- The distinct endpoint classifications of the reconciled manifest
(`merged_df["endpoint"].unique()`). -/
def uniqueEndpoints (index previous : List IndexRow) (lines : List String) :
    List String :=
  uniqueKeepOrder ((mergedAfterFallback index previous lines).map (fun m => m.endpoint))

/-- Sum of `series_size_MB` over the merged rows; pandas `.sum()` skips the
NaN of unmatched rows. -/
def mergedTotalSize (index previous : List IndexRow) (lines : List String) : ℚ :=
  round2 (((mergedAfterFallback index previous lines).map
    (fun m => m.series_size_MB.getD 0)).sum)

/-- What one call of `_validate_update_manifest_and_get_download_size` does,
as observable by the caller. -/
inductive ManifestOutcome where
  /-- `ValueError` of line 885 (endpoint mix), with its message. -/
  | raisedMixedEndpoint (msg : String)
  /-- The bare `raise ValueError` of line 915 (GCP probe judged the manifest
  invalid); it carries no message and in particular no manifest lines. -/
  | raisedBareValueError
  /-- Normal return: total size, the endpoint chosen (None when no branch
  assigned one), and the unmatched lines that were logged on the way. -/
  | ok (total_size : ℚ) (endpoint_to_use : Option String)
       (logged_unmatched_lines : List String)
deriving DecidableEq

def mixedEndpointMessage : String :=
  "Either GCS bucket path is invalid or manifest has a mix of GCS and AWS urls. "

/-- Source lines 672-929 (the parsing, joining, endpoint classification and
sizing of `_validate_update_manifest_and_get_download_size`; the subsequent
serialization of the directive file is covered by the effects model below).
`gcpProbeError` stands for the external s5cmd `ls` probe of lines 899-910
reporting failure (`process.stderr` non-empty and stdout starting with
`ERROR`). -/
def _validate_update_manifest_model (index previous : List IndexRow)
    (lines : List String) (validate_manifest gcpProbeError : Bool) :
    ManifestOutcome :=
  let merged := mergedAfterFallback index previous lines
  let logged := unmatchedManifestLines index previous lines
  let eps := uniqueEndpoints index previous lines
  let total_size := mergedTotalSize index previous lines
  if validate_manifest then
    if 1 < eps.length then ManifestOutcome.raisedMixedEndpoint mixedEndpointMessage
    else if eps = ["aws"] then
      ManifestOutcome.ok total_size (some aws_endpoint_url) logged
    else if eps = ["unknown"] then
      if gcpProbeError then ManifestOutcome.raisedBareValueError
      else ManifestOutcome.ok total_size (some gcp_endpoint_url) logged
    else ManifestOutcome.ok total_size none logged
  else
    if (merged.map (fun m => m.endpoint)).head? = some "aws" then
      ManifestOutcome.ok total_size (some aws_endpoint_url) logged
    else
      ManifestOutcome.ok total_size (some gcp_endpoint_url) logged

/-! ## Download from selection (`download_from_selection`, lines 1559-1800)

The model covers the series-level path of a client without auxiliary indices
(the state of a freshly constructed `IDCClient`): a truthy `sopInstanceUID`
then raises because the instance-level index is not installed (lines
1596-1607).  The free disk space psutil reports for the destination is an
explicit parameter. -/

inductive SelectionDownloadOutcome where
  /-- An exception propagates out of the call. -/
  | raised (e : PyError)
  /-- Lines 1665-1674: not enough free space — the required and available
  sizes are formatted and written through `logger.error`, then the function
  returns `None` normally; no directive file is created or executed. -/
  | insufficientSpaceLoggedReturn (needed available : FormattedSize)
  /-- Lines 1682-1686: `dry_run=True` — size computed, nothing downloaded. -/
  | dryRunReturn (total_size : ℚ)
  /-- The call goes on to build the directive file and invoke `_s5cmd_run`
  (its temp-file effects are modelled separately below). -/
  | transferStarted (total_size : ℚ)
deriving DecidableEq

/-- The dataframe the selection is resolved against (lines 1596-1643):
current plus prior-version rows when `crdc_series_uuid` is supplied,
otherwise the current index. -/
def selectionDownloadDf (index previous : List IndexRow)
    (crdc_series_uuid : Option PyVal) : List IndexRow :=
  if crdc_series_uuid.isSome then index ++ previous else index

/-- Source lines 1559-1694 (argument resolution, filtering, sizing and the
pre-transfer checks of `download_from_selection`). -/
def download_from_selection (index previous : List IndexRow)
    (diskFreeSpaceMB : ℚ) (dry_run : Bool)
    (collection_id patientId studyInstanceUID seriesInstanceUID
      sopInstanceUID crdc_series_uuid : Option PyVal) :
    SelectionDownloadOutcome :=
  if pyTruthy sopInstanceUID then
    SelectionDownloadOutcome.raised (PyError.valueError
      "Instance-level access not possible because instance-level index not installed.")
  else
    let download_df := selectionDownloadDf index previous crdc_series_uuid
    match _safe_filter_by_selection download_df collection_id patientId
        studyInstanceUID seriesInstanceUID sopInstanceUID crdc_series_uuid with
    | Except.error e => SelectionDownloadOutcome.raised e
    | Except.ok none =>
      -- result_df is None; `result_df["series_size_MB"]` raises TypeError
      SelectionDownloadOutcome.raised PyError.noneNotSubscriptable
    | Except.ok (some rows) =>
      let total_size := round2 ((rows.map (fun r => r.series_size_MB)).sum)
      if diskFreeSpaceMB < total_size then
        SelectionDownloadOutcome.insufficientSpaceLoggedReturn
          (_format_size total_size false) (_format_size diskFreeSpaceMB false)
      else if dry_run then SelectionDownloadOutcome.dryRunReturn total_size
      else SelectionDownloadOutcome.transferStarted total_size

/-! ## `get_series_size` (lines 323-340) -/

/-- The scalar column labels of the main index dataframe. -/
def index_columns : List String :=
  ["collection_id", "PatientID", "StudyInstanceUID", "SeriesInstanceUID",
   "Modality", "SeriesDate", "SeriesDescription", "BodyPartExamined",
   "Manufacturer", "ManufacturerModelName", "SeriesNumber", "instanceCount",
   "series_size_MB", "series_aws_url", "crdc_series_uuid"]

/-- pandas `__getitem__` on the main index with a scalar key: a string key
among the column labels selects that column; any other scalar — in
particular a `bool` — is not a column label and raises `KeyError`. -/
def index_getitem_scalar (k : PandasKey) : Except PyError PandasKey :=
  match k with
  | PandasKey.strKey s =>
    if index_columns.contains s then Except.ok k
    else Except.error (PyError.keyError k)
  | PandasKey.boolKey _ => Except.error (PyError.keyError k)

/-- The Python expression `["SeriesInstanceUID"] == seriesInstanceUID`: a
list literal compared to the argument, `True` exactly when the argument is
the equal list. -/
def listLiteralEqArg (arg : PyVal) : Bool :=
  match arg with
  | PyVal.plist l => l == ["SeriesInstanceUID"]
  | _ => false

/-- Source lines 323-340:
`resp = self.index[["SeriesInstanceUID"] == seriesInstanceUID]["series_size_MB"].iloc[0]`.
The subscript key is the boolean produced by the list comparison, so the
column lookup raises before the `series_size_MB` projection or `iloc[0]`
ever run (the `Except.ok` continuation below is dead code). -/
def get_series_size (index : List IndexRow) (seriesInstanceUID : PyVal) :
    Except PyError ℚ :=
  match index_getitem_scalar (PandasKey.boolKey (listLiteralEqArg seriesInstanceUID)) with
  | Except.error e => Except.error e
  | Except.ok _ => Except.ok ((index.map (fun r => r.series_size_MB)).headD 0)

/-! ## Progress tracking (`_track_download_progress`, lines 1024-1095)

The on-disk byte totals `_get_dir_sum_file_size` would report for the watched
directories are passed as a list of natural numbers, one per directory, in
`list_of_directories` order. -/

/-- The baseline loop of lines 1041-1044: `initial_size_bytes = 0` and then,
for each watched directory, `initial_size_bytes =
IDCClient._get_dir_sum_file_size(directory)` — a plain assignment, so the
result is the size of the last directory (0 for an empty list). -/
def initial_size_bytes (directorySizes : List ℕ) : ℕ :=
  directorySizes.foldl (fun _ s => s) 0

/-- One polling iteration, lines 1064-1067: `downloaded_bytes = 0` then
`downloaded_bytes += IDCClient._get_dir_sum_file_size(directory)` over the
same directories — a sum. -/
def polled_downloaded_bytes (directorySizes : List ℕ) : ℕ :=
  directorySizes.foldl (fun acc s => acc + s) 0

/-- Line 1068: `pbar.n = min(downloaded_bytes, total_size_to_be_downloaded_bytes)`. -/
def reported_progress (downloaded total : ℤ) : ℤ := min downloaded total

/-! ## Temporary-file effects of one `_s5cmd_run` call (lines 1167-1359)

The directive (manifest) file handed to `_s5cmd_run` was created with
`delete=False` by the planner (`_validate_update_manifest_and_get_download_size`
line 932 or `download_from_selection` line 1739).  `_s5cmd_run` itself
creates a synced manifest (via
`_parse_s5cmd_sync_output_and_generate_synced_manifest`, line 1159, also
`delete=False`) on the sync path with a non-empty dry run, and a stderr log
file (line 1319) on the non-sync path; the only deletion anywhere is
`Path(stderr_log_file.name).unlink()` at line 1345. -/

inductive TempArtifact where
  | directiveFile
  | syncedManifestFile
  | stderrLogFile
deriving DecidableEq

structure S5cmdRunEffects where
  created : List TempArtifact
  deleted : List TempArtifact
  executedTransfer : Bool
deriving DecidableEq

/-- The branch structure of `_s5cmd_run` (lines 1216-1359) as a trace of
temp-file effects: `use_s5cmd_sync` and a non-empty destination selects the
sync path; there, an empty dry-run stdout means nothing is transferred,
otherwise a synced manifest is written (never deleted) and the transfer runs;
on the plain path a stderr log is created, the transfer runs, and the log is
unlinked after being read.  The directive file is deleted on no path. -/
def _s5cmd_run_effects (use_s5cmd_sync downloadDirNonEmpty dryRunStdoutNonEmpty : Bool) :
    S5cmdRunEffects :=
  if use_s5cmd_sync && downloadDirNonEmpty then
    if dryRunStdoutNonEmpty then
      { created := [TempArtifact.syncedManifestFile], deleted := [],
        executedTransfer := true }
    else
      { created := [], deleted := [], executedTransfer := false }
  else
    { created := [TempArtifact.stderrLogFile],
      deleted := [TempArtifact.stderrLogFile], executedTransfer := true }

/-! ## Concrete fixtures used by witnesses and counterexamples -/

/-- A series of the current index: 5 MB, stored under uuid `u1`. -/
def row1 : IndexRow :=
  { collection_id := "tcga_gbm", PatientID := "p1", StudyInstanceUID := "st1",
    SeriesInstanceUID := "se1", SOPInstanceUID := "", Modality := "CT",
    series_size_MB := 5, series_aws_url := "s3://bucket/u1/*" }

/-- A second series of the current index: 7 MB, uuid `u2`, another bucket. -/
def row2 : IndexRow :=
  { collection_id := "tcga_gbm", PatientID := "p2", StudyInstanceUID := "st2",
    SeriesInstanceUID := "se2", SOPInstanceUID := "", Modality := "MR",
    series_size_MB := 7, series_aws_url := "s3://bucket2/u2/*" }

/-- A 50 MB series used by the disk-space scenario. -/
def rowBig : IndexRow :=
  { collection_id := "c", PatientID := "p", StudyInstanceUID := "st",
    SeriesInstanceUID := "se", SOPInstanceUID := "", Modality := "CT",
    series_size_MB := 50, series_aws_url := "s3://b/u9/*" }

/-- A manifest line whose uuid `u2` is absent from index `[row1]`. -/
def unmatchedLine : String := "cp s3://bucket/u2/* /dst"

/-- A manifest mixing an entry whose url equals the indexed one (`aws`) with
an entry whose uuid matches but whose bucket differs (`unknown`). -/
def mixedLines : List String :=
  ["cp s3://bucket/u1/* /dst", "cp s3://bucketX/u2/* /dst"]

/-! ## Helper lemmas -/

theorem roundHalfEven_intCast (z : ℤ) : roundHalfEven (z : ℚ) = z := by
  unfold roundHalfEven
  rw [Int.floor_intCast]
  norm_num

theorem round2_intCast (z : ℤ) : round2 (z : ℚ) = (z : ℚ) := by
  unfold round2
  rw [show ((z : ℚ) * 100) = (((z * 100 : ℤ)) : ℚ) by push_cast; ring,
    roundHalfEven_intCast]
  push_cast
  field_simp

theorem round2_eq_of_eq_intCast (q : ℚ) (z : ℤ) (h : q = (z : ℚ)) :
    round2 q = q := by
  rw [h, round2_intCast]

theorem format_size_MB_range (q : ℚ) (h1 : 1 ≤ q) (h2 : q < 1000) :
    _format_size q false = ⟨round2 q, "MB"⟩ := by
  unfold _format_size
  have hGB : ¬(1 : ℚ) ≤ q / 1000 := by
    rw [not_le, div_lt_one (by norm_num : (0 : ℚ) < 1000)]
    exact h2
  have hTB : ¬(1 : ℚ) ≤ q / 1000 / 1000 := by
    rw [not_le, div_div, div_lt_one (by norm_num : (0 : ℚ) < 1000 * 1000)]
    linarith
  simp only [Bool.false_eq_true, if_false, if_neg hTB, if_neg hGB, if_pos h1]

theorem checkArgType_ok (argName : String) (v : Option PyVal)
    (h : okArg v = true) : checkArgType argName v = Except.ok () := by
  cases v with
  | none => rfl
  | some pv =>
    cases pv with
    | pstr s => rfl
    | plist l => rfl
    | pother => simp [okArg] at h

/-! ## Claim theorems -/

/-- C6: for every directory template (and base directory), stripping every
whitelisted token and every allowed separator leaves a non-empty residue if
and only if the Directory Hierarchy Resolver rejects the template, and the
rejection diagnostic names exactly that residue and lists the valid tokens
and separators; a template with empty residue is accepted. -/
theorem directory_template_residue_validation (dirTemplate downloadDir : String) :
    (templateResidue dirTemplate ≠ "" →
      _generate_sql_concat_for_building_directory dirTemplate downloadDir =
        Except.error ⟨templateResidue dirTemplate, valid_attributes, valid_separators⟩)
    ∧ (templateResidue dirTemplate = "" →
      _generate_sql_concat_for_building_directory dirTemplate downloadDir =
        Except.ok (buildConcatCommand dirTemplate downloadDir)) := by
  unfold _generate_sql_concat_for_building_directory
  constructor <;> intro h <;> simp [h]

/-- Witness for C6: the template `%PatientID/%BadToken` leaves the residue
`%BadToken` and is rejected with a diagnostic naming it, together with the
token and separator whitelists. -/
theorem directory_template_residue_validation_witness :
    _generate_sql_concat_for_building_directory "%PatientID/%BadToken" "/dst" =
      Except.error ⟨"%BadToken", valid_attributes, valid_separators⟩ := by
  have h :=
    (directory_template_residue_validation "%PatientID/%BadToken" "/dst").1
      (by decide)
  rw [h]
  decide

/-- C7: when none of the six identifier filters is supplied,
`_safe_filter_by_selection` returns `None` rather than the whole index, and
`download_from_selection` then raises a `TypeError` subscripting `None` —
contradicting its own docstring, which promises that with no filtering all
files are downloaded. -/
theorem empty_selection_returns_none_then_type_error
    (index previous : List IndexRow) (diskFreeSpaceMB : ℚ) (dry_run : Bool) :
    _safe_filter_by_selection index none none none none none none = Except.ok none
    ∧ download_from_selection index previous diskFreeSpaceMB dry_run
        none none none none none none =
      SelectionDownloadOutcome.raised PyError.noneNotSubscriptable :=
  ⟨rfl, rfl⟩

/-- C8: the baseline of `_track_download_progress` is computed by a loop that
assigns instead of accumulating, so for watched directories holding 100 and
50 pre-transfer bytes the baseline is 50 — the size of the last directory —
while the polling loop (and the claim) sums to 150; subtracting this baseline
reports 100 phantom bytes before any transfer. -/
theorem progress_baseline_last_directory_not_sum :
    initial_size_bytes [100, 50] = 50
    ∧ polled_downloaded_bytes [100, 50] = 150
    ∧ initial_size_bytes [100, 50] ≠ polled_downloaded_bytes [100, 50]
    ∧ (polled_downloaded_bytes [100, 50] : ℤ) - (initial_size_bytes [100, 50] : ℤ) = 100
    ∧ reported_progress 200 150 = 150 := by
  refine ⟨rfl, rfl, by decide, by decide, by decide⟩

/-- C9 (amended): `_s5cmd_run` deletes only the temporary stderr log file,
and only on the non-sync execution path (the sole path that creates one); the
temporary directive file handed in by the planner, and the synced manifest
written on the sync path, are deleted on no execution path. -/
theorem s5cmd_run_temp_file_deletion_amended
    (use_s5cmd_sync downloadDirNonEmpty dryRunStdoutNonEmpty : Bool) :
    TempArtifact.directiveFile ∉
      (_s5cmd_run_effects use_s5cmd_sync downloadDirNonEmpty dryRunStdoutNonEmpty).deleted
    ∧ TempArtifact.syncedManifestFile ∉
      (_s5cmd_run_effects use_s5cmd_sync downloadDirNonEmpty dryRunStdoutNonEmpty).deleted
    ∧ (_s5cmd_run_effects use_s5cmd_sync downloadDirNonEmpty dryRunStdoutNonEmpty).deleted =
      (if use_s5cmd_sync && downloadDirNonEmpty then []
       else [TempArtifact.stderrLogFile]) := by
  cases use_s5cmd_sync <;> cases downloadDirNonEmpty <;> cases dryRunStdoutNonEmpty <;>
    decide

/-- Counterexample for C9: on the plain (non-sync) execution path the stderr
log file is created and deleted, but the temporary directive file is not
among the deleted artifacts — so a download invocation does not delete both
temporary files. -/
theorem s5cmd_run_directive_file_never_deleted_counterexample :
    (_s5cmd_run_effects false false false).created = [TempArtifact.stderrLogFile]
    ∧ (_s5cmd_run_effects false false false).deleted = [TempArtifact.stderrLogFile]
    ∧ TempArtifact.directiveFile ∉ (_s5cmd_run_effects false false false).deleted := by
  decide

/-- C10: `get_series_size` raises for every argument value — including any
`SeriesInstanceUID` present in the index, since the index is universally
quantified here — because the dataframe is subscripted with the boolean
value of `["SeriesInstanceUID"] == seriesInstanceUID`, which is not a column
label, so pandas raises `KeyError` before a size can be returned. -/
theorem get_series_size_always_raises_key_error
    (index : List IndexRow) (seriesInstanceUID : PyVal) :
    get_series_size index seriesInstanceUID =
      Except.error (PyError.keyError (PandasKey.boolKey (listLiteralEqArg seriesInstanceUID))) :=
  rfl

/-- C1: for every index and every well-typed selection,
`_safe_filter_by_selection` returns exactly what it returns for the selection
reduced to its single most specific non-null identifier (order
crdc_series_uuid, SOPInstanceUID, SeriesInstanceUID, StudyInstanceUID,
PatientID, collection_id) — supplying ancestor identifiers alongside a child
identifier never changes the resulting row set. -/
theorem selection_filter_applies_only_most_specific_field
    (df : List IndexRow) (s : Selection) (h : s.wellTypedArgs = true) :
    applySelectionFilter df s = applySelectionFilter df (mostSpecificOnly s) := by
  obtain ⟨c, p, st, se, so, cr⟩ := s
  simp only [Selection.wellTypedArgs, Bool.and_eq_true] at h
  obtain ⟨⟨⟨⟨⟨h1, h2⟩, h3⟩, h4⟩, h5⟩, h6⟩ := h
  have e1 := checkArgType_ok "collection_id" c h1
  have e2 := checkArgType_ok "patientId" p h2
  have e3 := checkArgType_ok "studyInstanceUID" st h3
  have e4 := checkArgType_ok "seriesInstanceUID" se h4
  have e5 := checkArgType_ok "sopInstanceUID" so h5
  have e6 := checkArgType_ok "crdc_series_uuid" cr h6
  cases cr <;> cases so <;> cases se <;> cases st <;> cases p <;>
    simp_all [applySelectionFilter, _safe_filter_by_selection, mostSpecificOnly,
      selectionHierarchyChain, checkArgType]

/-- Witness for C1: a selection supplying `collection_id` (an ancestor)
together with `SeriesInstanceUID` (the most specific supplied identifier)
filters identically to supplying `SeriesInstanceUID` alone, on a concrete
two-row index. -/
theorem selection_filter_applies_only_most_specific_field_witness :
    Selection.wellTypedArgs
        ⟨some (PyVal.pstr "tcga_gbm"), none, none, some (PyVal.pstr "se1"), none, none⟩ = true
    ∧ applySelectionFilter [row1, row2]
        ⟨some (PyVal.pstr "tcga_gbm"), none, none, some (PyVal.pstr "se1"), none, none⟩ =
      applySelectionFilter [row1, row2]
        (mostSpecificOnly
          ⟨some (PyVal.pstr "tcga_gbm"), none, none, some (PyVal.pstr "se1"), none, none⟩) :=
  ⟨by decide,
    selection_filter_applies_only_most_specific_field [row1, row2]
      ⟨some (PyVal.pstr "tcga_gbm"), none, none, some (PyVal.pstr "se1"), none, none⟩
      (by decide)⟩

/-- C2: for every filter key and every well-typed value or list of values,
if none of the values occurs in the key's column the filter raises an error
naming the key and the values (never an empty result); any non-error result
is non-empty; and if at least one value occurs, the non-empty matching
subset is returned. -/
theorem filter_by_id_raises_selection_not_found_never_empty
    (key : ColKey) (df : List IndexRow) (idArg : PyVal)
    (hty : okArg (some idArg) = true) :
    ((∀ r ∈ df, colGet key r ∉ idValues idArg) →
      _filter_dataframe_by_id key df idArg =
        Except.error (PyError.selectionNotFound (colName key) (idValues idArg)))
    ∧ (∀ rows, _filter_dataframe_by_id key df idArg = Except.ok rows → rows ≠ [])
    ∧ ((∃ r ∈ df, colGet key r ∈ idValues idArg) →
      _filter_dataframe_by_id key df idArg =
        Except.ok (df.filter (fun r => (idValues idArg).contains (colGet key r)))
      ∧ df.filter (fun r => (idValues idArg).contains (colGet key r)) ≠ []) := by
  have hc : ∀ (x : String) (l : List String), l.contains x = true ↔ x ∈ l :=
    fun x l => List.elem_iff
  unfold _filter_dataframe_by_id
  refine ⟨?_, ?_, ?_⟩
  · intro hnone
    have hfil : df.filter (fun r => (idValues idArg).contains (colGet key r)) = [] := by
      rw [List.filter_eq_nil_iff]
      intro r hr hcont
      exact hnone r hr ((hc _ _).mp hcont)
    rw [if_pos (show
      (df.filter (fun r => (idValues idArg).contains (colGet key r))).isEmpty = true by
        rw [hfil]; rfl)]
  · intro rows hok
    by_cases hfil :
      (df.filter (fun r => (idValues idArg).contains (colGet key r))).isEmpty = true
    · rw [if_pos hfil] at hok
      exact absurd hok (by simp)
    · rw [if_neg hfil] at hok
      cases hok
      intro hnil
      rw [hnil] at hfil
      exact hfil rfl
  · rintro ⟨r, hr, hv⟩
    have hmem : r ∈ df.filter (fun x => (idValues idArg).contains (colGet key x)) :=
      List.mem_filter.mpr ⟨hr, (hc _ _).mpr hv⟩
    have hne : df.filter (fun x => (idValues idArg).contains (colGet key x)) ≠ [] := by
      intro hnil
      rw [hnil] at hmem
      cases hmem
    have hfil :
        ¬(df.filter (fun x => (idValues idArg).contains (colGet key x))).isEmpty = true := by
      intro hemp
      exact hne (List.isEmpty_iff.mp hemp)
    rw [if_neg hfil]
    exact ⟨rfl, hne⟩

/-- Witness for C2: on a concrete index, a value absent from the
`collection_id` column raises the error naming key and values, and a present
value returns the non-empty matching subset. -/
theorem filter_by_id_raises_selection_not_found_never_empty_witness :
    (∀ r ∈ [row1, row2], colGet ColKey.collection_id r ∉ idValues (PyVal.pstr "zz"))
    ∧ _filter_dataframe_by_id ColKey.collection_id [row1, row2] (PyVal.pstr "zz") =
        Except.error (PyError.selectionNotFound "collection_id" ["zz"]) :=
  ⟨by decide,
    (filter_by_id_raises_selection_not_found_never_empty ColKey.collection_id
      [row1, row2] (PyVal.pstr "zz") (by decide)).1 (by decide)⟩

/-- C5 (amended): for every selection download (series-level path) whose
destination has less free space than the estimated total size,
`download_from_selection` logs the required and the available space —
formatted in the largest of MB/GB/TB that is at least 1 — and returns
normally, without creating or executing any directive file; it does not
raise an `InsufficientDiskSpaceError`. -/
theorem insufficient_disk_space_logs_and_returns_amended
    (index previous : List IndexRow) (diskFreeSpaceMB : ℚ) (dry_run : Bool)
    (collection_id patientId studyInstanceUID seriesInstanceUID
      sopInstanceUID crdc_series_uuid : Option PyVal) (rows : List IndexRow)
    (hso : pyTruthy sopInstanceUID = false)
    (hf : _safe_filter_by_selection
        (selectionDownloadDf index previous crdc_series_uuid)
        collection_id patientId studyInstanceUID seriesInstanceUID
        sopInstanceUID crdc_series_uuid = Except.ok (some rows))
    (hlt : diskFreeSpaceMB < round2 ((rows.map (fun r => r.series_size_MB)).sum)) :
    download_from_selection index previous diskFreeSpaceMB dry_run
      collection_id patientId studyInstanceUID seriesInstanceUID
      sopInstanceUID crdc_series_uuid =
    SelectionDownloadOutcome.insufficientSpaceLoggedReturn
      (_format_size (round2 ((rows.map (fun r => r.series_size_MB)).sum)) false)
      (_format_size diskFreeSpaceMB false) := by
  unfold download_from_selection
  simp only [hso, Bool.false_eq_true, if_false, hf]
  rw [if_pos hlt]

/-- Counterexample for C5: a 50 MB selection against a destination with
10 MB free is not rejected by an exception — the call returns the
logged-and-return outcome carrying `50 MB` needed and `10 MB` available,
which refutes the claim that `InsufficientDiskSpaceError` is raised. -/
theorem insufficient_disk_space_no_raise_counterexample :
    download_from_selection [rowBig] [] 10 false
      (some (PyVal.pstr "c")) none none none none none =
    SelectionDownloadOutcome.insufficientSpaceLoggedReturn ⟨50, "MB"⟩ ⟨10, "MB"⟩ := by
  have hf : _safe_filter_by_selection (selectionDownloadDf [rowBig] [] none)
      (some (PyVal.pstr "c")) none none none none none =
      Except.ok (some [rowBig]) := by decide
  have hsum : (([rowBig].map (fun r => r.series_size_MB)).sum) = (50 : ℚ) := by
    simp [rowBig]
  have h50 : round2 (50 : ℚ) = 50 :=
    round2_eq_of_eq_intCast 50 50 (by norm_num)
  have h10 : round2 (10 : ℚ) = 10 :=
    round2_eq_of_eq_intCast 10 10 (by norm_num)
  unfold download_from_selection
  simp only [pyTruthy, Bool.false_eq_true, if_false, hf]
  rw [hsum, h50, if_pos (by norm_num : (10 : ℚ) < 50),
    format_size_MB_range 50 (by norm_num) (by norm_num),
    format_size_MB_range 10 (by norm_num) (by norm_num), h50, h10]

/-- Witness for C5 (amended): the amended theorem applied at a concrete
10 MB destination and a 50 MB single-series selection. -/
theorem insufficient_disk_space_logs_and_returns_amended_witness :
    download_from_selection [rowBig] [] 10 true
      none (some (PyVal.pstr "p")) none none none none =
    SelectionDownloadOutcome.insufficientSpaceLoggedReturn
      (_format_size (round2 (([rowBig].map (fun r => r.series_size_MB)).sum)) false)
      (_format_size 10 false) :=
  insufficient_disk_space_logs_and_returns_amended [rowBig] [] 10 true
    none (some (PyVal.pstr "p")) none none none none [rowBig] rfl (by decide)
    (by
      rw [show (([rowBig].map (fun r => r.series_size_MB)).sum) = (50 : ℚ) by
        simp [rowBig]]
      rw [round2_eq_of_eq_intCast 50 50 (by norm_num)]
      norm_num)

/-- C3 (amended): entries still unmatched after the prior-versions fallback
are reported only through logging of the literal offending lines, in both
validation modes.  Under lenient validation the reconciliation never raises.
Under strict validation it raises the mixed-endpoint error exactly when more
than one endpoint class occurs, and the bare `ValueError` — which carries no
message and in particular lists no unmatched lines — exactly when the sole
endpoint class is `unknown` and the GCP listing probe reports failure; any
normal return carries exactly the logged unmatched lines. -/
theorem manifest_strict_validation_behavior_amended
    (index previous : List IndexRow) (lines : List String) (gcpProbeError : Bool) :
    (∃ ep, _validate_update_manifest_model index previous lines false gcpProbeError =
      ManifestOutcome.ok (mergedTotalSize index previous lines) ep
        (unmatchedManifestLines index previous lines))
    ∧ (_validate_update_manifest_model index previous lines true gcpProbeError =
        ManifestOutcome.raisedMixedEndpoint mixedEndpointMessage ↔
      1 < (uniqueEndpoints index previous lines).length)
    ∧ (_validate_update_manifest_model index previous lines true gcpProbeError =
        ManifestOutcome.raisedBareValueError ↔
      (uniqueEndpoints index previous lines = ["unknown"] ∧ gcpProbeError = true))
    ∧ (∀ ts ep lg,
        _validate_update_manifest_model index previous lines true gcpProbeError =
          ManifestOutcome.ok ts ep lg →
        lg = unmatchedManifestLines index previous lines) := by
  refine ⟨?_, ?_, ?_, ?_⟩
  · unfold _validate_update_manifest_model
    simp only [Bool.false_eq_true, if_false]
    split
    · exact ⟨_, rfl⟩
    · exact ⟨_, rfl⟩
  · unfold _validate_update_manifest_model
    simp only [if_true]
    split_ifs with h1 h2 h3 h4 <;> simp_all
  · unfold _validate_update_manifest_model
    simp only [if_true]
    split_ifs with h1 h2 h3 h4 <;> simp_all
    intro he
    rw [he] at h1
    simp at h1
  · unfold _validate_update_manifest_model
    simp only [if_true]
    intro ts ep lg h
    split_ifs at h <;> simp_all

/-- Counterexample for C3: under strict validation, a manifest whose single
entry (uuid `u2`) matches neither the current index `[row1]` nor the (empty)
prior-version index does not raise at all when the GCP probe succeeds — the
call returns normally with the GCP endpoint, the unmatched line only logged —
refuting the claim that a `ManifestValidationError` listing the unmatched
lines is raised. -/
theorem manifest_strict_unmatched_no_error_counterexample :
    _validate_update_manifest_model [row1] [] [unmatchedLine] true false =
      ManifestOutcome.ok 0 (some gcp_endpoint_url) [unmatchedLine] := by
  have heps : uniqueEndpoints [row1] [] [unmatchedLine] = ["unknown"] := by decide
  have hlog : unmatchedManifestLines [row1] [] [unmatchedLine] = [unmatchedLine] := by
    decide
  have hm : mergedAfterFallback [row1] [] [unmatchedLine] =
      [{ manifest_cp_cmd := unmatchedLine, s3_url := some "s3://bucket/u2/*",
         seriesInstanceUID := none, series_size_MB := none,
         crdc_series_uuid_match := false, s3_url_match := false,
         endpoint := "unknown" }] := by decide
  have htot : mergedTotalSize [row1] [] [unmatchedLine] = 0 := by
    unfold mergedTotalSize
    rw [hm]
    simp only [List.map_cons, List.map_nil, Option.getD_none, List.sum_cons,
      List.sum_nil, add_zero]
    exact round2_eq_of_eq_intCast 0 0 (by norm_num)
  unfold _validate_update_manifest_model
  simp only [if_true, heps, hlog, htot]
  rw [if_neg (by decide), if_neg (by decide)]
  simp

/-- Witness for C3 (amended): the amended theorem's lenient conclusion at the
concrete unmatched-entry fixture — a normal return carrying the logged
unmatched line. -/
theorem manifest_strict_validation_behavior_amended_witness :
    ∃ ep, _validate_update_manifest_model [row1] [] [unmatchedLine] false false =
      ManifestOutcome.ok (mergedTotalSize [row1] [] [unmatchedLine]) ep
        (unmatchedManifestLines [row1] [] [unmatchedLine]) :=
  (manifest_strict_validation_behavior_amended [row1] [] [unmatchedLine] false).1

/-- C4 (amended): when validation is requested, a manifest whose entries
classify to more than one storage endpoint is rejected with the
mixed-endpoint error before any download plan is produced; under lenient
validation the same manifest is not rejected and a plan is produced. -/
theorem manifest_mixed_endpoint_rejected_under_validation_amended
    (index previous : List IndexRow) (lines : List String) (gcpProbeError : Bool)
    (h : 1 < (uniqueEndpoints index previous lines).length) :
    _validate_update_manifest_model index previous lines true gcpProbeError =
      ManifestOutcome.raisedMixedEndpoint mixedEndpointMessage
    ∧ ∃ ts ep lg,
        _validate_update_manifest_model index previous lines false gcpProbeError =
          ManifestOutcome.ok ts ep lg := by
  constructor
  · unfold _validate_update_manifest_model
    simp only [if_true]
    rw [if_pos h]
  · unfold _validate_update_manifest_model
    simp only [Bool.false_eq_true, if_false]
    split
    · exact ⟨_, _, _, rfl⟩
    · exact ⟨_, _, _, rfl⟩

/-- Counterexample for C4: under lenient validation (`validate_manifest`
false) a manifest mixing an `aws`-classified entry with an
`unknown`-classified one is not rejected — reconciliation returns a plan
sized 12 MB targeting the first entry's endpoint — refuting the claim that
every mixed manifest is rejected with `MixedEndpointError`. -/
theorem manifest_mixed_endpoint_lenient_counterexample :
    _validate_update_manifest_model [row1, row2] [] mixedLines false false =
      ManifestOutcome.ok 12 (some aws_endpoint_url) [] := by
  have hm : mergedAfterFallback [row1, row2] [] mixedLines =
      [{ manifest_cp_cmd := "cp s3://bucket/u1/* /dst",
         s3_url := some "s3://bucket/u1/*", seriesInstanceUID := some "se1",
         series_size_MB := some 5, crdc_series_uuid_match := true,
         s3_url_match := true, endpoint := "aws" },
       { manifest_cp_cmd := "cp s3://bucketX/u2/* /dst",
         s3_url := some "s3://bucketX/u2/*", seriesInstanceUID := some "se2",
         series_size_MB := some 7, crdc_series_uuid_match := true,
         s3_url_match := false, endpoint := "unknown" }] := by decide
  have hlog : unmatchedManifestLines [row1, row2] [] mixedLines = [] := by decide
  have htot : mergedTotalSize [row1, row2] [] mixedLines = 12 := by
    unfold mergedTotalSize
    rw [hm]
    simp only [List.map_cons, List.map_nil, Option.getD_some, List.sum_cons,
      List.sum_nil, add_zero]
    rw [show (5 : ℚ) + 7 = 12 by norm_num]
    exact round2_eq_of_eq_intCast 12 12 (by norm_num)
  unfold _validate_update_manifest_model
  simp only [Bool.false_eq_true, if_false, hm, hlog, htot]
  norm_num

/-- Witness for C4 (amended): the amended theorem applied to the concrete
mixed manifest; strict validation rejects it with the mixed-endpoint error. -/
theorem manifest_mixed_endpoint_rejected_under_validation_amended_witness :
    _validate_update_manifest_model [row1, row2] [] mixedLines true false =
      ManifestOutcome.raisedMixedEndpoint mixedEndpointMessage :=
  (manifest_mixed_endpoint_rejected_under_validation_amended [row1, row2] []
    mixedLines false (by decide)).1

end IdcIndex
